import Mathlib

/-!
Verification development for the problems-dashboard backend.

We give a shallow embedding of the core of the repository:
the filter normalizer (`parseFilters` in `src/utils/filter.utils.ts`),
the query builder and the record repository
(`ProblemRepository.buildFilter`, `findAll`, `findAllProblems`,
`addComment` in `src/repositories/problem.repository.ts`),
and the analytics engine (`AnalyticsService` in
`src/services/analytics.service.ts`).

Modelling decisions:
- JavaScript numbers are modelled as rationals (`Rat`); the special
  values `NaN`/`Infinity` are modelled explicitly by the `JSNum` type
  where the code can produce them (division, `toFixed`).
- Strings are Lean `String`s; case-insensitive substring matching is
  implemented over the character list.
- The MongoDB collection is modelled as a `List Problem`; the query
  object built by `buildFilter` is reified as the `MongoFilter`
  structure and evaluated against documents by `matchesFilter`.
  The `$text` full-text operator is an external store feature and is
  modelled as an oracle parameter `TextMatch`.
- The raw HTTP query is `RawQuery`: each field optionally holds a
  loosely-typed `RawValue` (string, boolean or string array), except
  `dateFrom`/`dateTo`/`search` which arrive as strings.  The numeric
  fields `durationMin`/`durationMax` (`Number(...)` coercion) are not
  part of the raw-query embedding; they are set directly on
  `ProblemFilters` where needed, as no claim exercises their parsing.
-/

/-! ## JavaScript numeric helpers -/

/-- `Math.round`: round half toward positive infinity. -/
def jsRound (q : Rat) : Int := ⌊q + 1/2⌋

/-- JavaScript number with the special values produced by `x / 0`. -/
inductive JSNum where
  | num (q : Rat)
  | nan
  | inf
  | negInf
deriving DecidableEq, Repr

/-- JavaScript division, modelling `0/0 = NaN` and `x/0 = ±Infinity`. -/
def jsDiv (a b : Rat) : JSNum :=
  if b = 0 then
    if a = 0 then .nan else if 0 < a then .inf else .negInf
  else .num (a / b)

/-- Multiplication of a `JSNum` by the positive literal 100. -/
def jsMul100 : JSNum → JSNum
  | .num q => .num (q * 100)
  | .nan => .nan
  | .inf => .inf
  | .negInf => .negInf

/-- `Number(x.toFixed(2))`: round to 2 decimals (half toward +∞,
as the ECMAScript `toFixed` spec picks the larger candidate);
`NaN` and the infinities pass through. -/
def jsToFixed2 : JSNum → JSNum
  | .num q => .num ((jsRound (q * 100) : Rat) / 100)
  | .nan => .nan
  | .inf => .inf
  | .negInf => .negInf

/-! ## String helpers -/

/-- Is `pat` a prefix of `s` (over character lists)? -/
def isPrefixCL : List Char → List Char → Bool
  | [], _ => true
  | _ :: _, [] => false
  | a :: as, b :: bs => a == b && isPrefixCL as bs

/-- Is `pat` an infix of `s` (over character lists)? -/
def isInfixCL (pat : List Char) : List Char → Bool
  | [] => pat.isEmpty
  | b :: bs => isPrefixCL pat (b :: bs) || isInfixCL pat bs

/-- `s.toLowerCase().includes(pat)` for an already-lowercase `pat`
(ASCII lowering, which covers every literal the code searches for). -/
def containsLower (s : String) (pat : String) : Bool :=
  isInfixCL pat.toList (s.toList.map Char.toLower)

/-- Lexicographic `≤` on code points, the order MongoDB uses when
comparing two string values. -/
def charListLe : List Char → List Char → Bool
  | [], _ => true
  | _ :: _, [] => false
  | a :: as, b :: bs =>
    if a.toNat < b.toNat then true
    else if b.toNat < a.toNat then false
    else charListLe as bs

/-- String comparison used for the `startTime` range clauses. -/
def strLe (a b : String) : Bool := charListLe a.toList b.toList

/-! ## Data model (`src/types/problem.types.ts`) -/

/-- A comment on a problem. -/
structure Comment where
  content : String := ""
  author : String := ""
deriving DecidableEq, Repr

/-- `recentComments`: running total plus the comment list. -/
structure RecentComments where
  totalCount : Nat := 0
  comments : List Comment := []
deriving DecidableEq, Repr

/-- Nested entity identifier `{id, type}`. -/
structure EntityId where
  id : String := ""
  type : String := ""
deriving DecidableEq, Repr

/-- An affected entity `{name, entityId}`. -/
structure AffectedEntity where
  name : String := ""
  entityId : EntityId := {}
deriving DecidableEq, Repr

/-- A management zone `{name}`. -/
structure ManagementZone where
  name : String := ""
deriving DecidableEq, Repr

/-- An entity tag `{stringRepresentation}`. -/
structure EntityTag where
  stringRepresentation : String := ""
deriving DecidableEq, Repr

/-- One evidence item `{evidenceType, eventType}`. -/
structure EvidenceDetail where
  evidenceType : String := ""
  eventType : Option String := none
deriving DecidableEq, Repr

/-- `evidenceDetails` wrapper holding the `details` list. -/
structure EvidenceDetails where
  details : List EvidenceDetail := []
deriving DecidableEq, Repr

/-- The `rootCauseEntity` field is absent, `null`, or an object. -/
inductive RootCauseEntity where
  | absent
  | null
  | obj (name : Option String)
deriving DecidableEq, Repr

/-- A problem document as stored in the collection.  `duration` is
optional (the analytics code defends with `|| 0`); `startTime` is the
stored string timestamp. -/
structure Problem where
  problemId : String := ""
  status : String := "OPEN"
  impactLevel : String := ""
  severityLevel : String := ""
  startTime : String := ""
  duration : Option Rat := none
  rootCauseEntity : RootCauseEntity := .absent
  managementZones : List ManagementZone := []
  affectedEntities : List AffectedEntity := []
  entityTags : List EntityTag := []
  evidenceDetails : EvidenceDetails := {}
  recentComments : RecentComments := {}
  autoremediado : Option Bool := none
  funcionoAutoRemediacion : Option Bool := none
deriving DecidableEq, Repr

/-- `problem.duration || 0`. -/
def durOrZero (p : Problem) : Rat := p.duration.getD 0

/-! ## ProblemFilters and the filter normalizer
(`src/utils/filter.utils.ts`) -/

/-- The canonical filter object.  Tri-state fields are
`Option (Option Bool)`: `none` = key absent (`undefined`),
`some none` = the explicit `null` marker, `some (some b)` = `b`. -/
structure ProblemFilters where
  impactLevel : Option (List String) := none
  severityLevel : Option (List String) := none
  status : Option (List String) := none
  managementZones : Option (List String) := none
  affectedEntityTypes : Option (List String) := none
  entityTags : Option (List String) := none
  evidenceType : Option (List String) := none
  dateFrom : Option String := none
  dateTo : Option String := none
  search : Option String := none
  durationMin : Option Rat := none
  durationMax : Option Rat := none
  hasComments : Option Bool := none
  hasGitHubActions : Option Bool := none
  hasRootCause : Option (Option Bool) := none
  autoremediado : Option (Option Bool) := none
  funcionoAutoRemediacion : Option (Option Bool) := none
deriving DecidableEq, Repr

/-- A loosely-typed raw request parameter value. -/
inductive RawValue where
  | str (s : String)
  | bool (b : Bool)
  | arr (xs : List String)
deriving DecidableEq, Repr

/-- JavaScript truthiness of a raw value (`""` is falsy, arrays are
always truthy). -/
def jsTruthy : RawValue → Bool
  | .str s => !(s == "")
  | .bool b => b
  | .arr _ => true

/-- `Array.isArray(v) ? v : [v]`. -/
def rawToList : RawValue → List String
  | .arr xs => xs
  | .str s => [s]
  | .bool b => [if b then "true" else "false"]

/-- `v === 'true' || v === true`. -/
def rawIsTrue (v : RawValue) : Bool := v == .str "true" || v == .bool true

/-- `v === 'false' || v === false`. -/
def rawIsFalse (v : RawValue) : Bool := v == .str "false" || v == .bool false

/-- The untyped request-parameter mapping fed to `parseFilters`.
`durationMin`/`durationMax` are outside this embedding (see header). -/
structure RawQuery where
  impactLevel : Option RawValue := none
  severityLevel : Option RawValue := none
  status : Option RawValue := none
  managementZones : Option RawValue := none
  affectedEntityTypes : Option RawValue := none
  entityTags : Option RawValue := none
  evidenceType : Option RawValue := none
  dateFrom : Option String := none
  dateTo : Option String := none
  search : Option String := none
  hasComments : Option RawValue := none
  hasGitHubActions : Option RawValue := none
  hasRootCause : Option RawValue := none
  autoremediado : Option RawValue := none
  funcionoAutoRemediacion : Option RawValue := none
deriving DecidableEq, Repr

/-- `if (query.f) filters.f = Array.isArray(query.f) ? query.f : [query.f]`. -/
def parseArrayField (v : Option RawValue) : Option (List String) :=
  match v with
  | some v => if jsTruthy v then some (rawToList v) else none
  | none => none

/-- `if (query.f) filters.f = query.f as string`. -/
def parseStringField (v : Option String) : Option String :=
  match v with
  | some s => if s == "" then none else some s
  | none => none

/-- `if (query.f !== undefined) filters.f = query.f === 'true' || query.f === true`. -/
def parseBoolField (v : Option RawValue) : Option Bool :=
  match v with
  | some v => some (rawIsTrue v)
  | none => none

/-- The tri-state branch (`hasRootCause`, `autoremediado`,
`funcionoAutoRemediacion`): `'true'`/`true` → `true`,
`'false'`/`false` → `false`, any other present value → `null`. -/
def parseTriStateField (v : Option RawValue) : Option (Option Bool) :=
  match v with
  | some v =>
    if rawIsTrue v then some (some true)
    else if rawIsFalse v then some (some false)
    else some none
  | none => none

/-- `parseFilters` from `src/utils/filter.utils.ts`. -/
def parseFilters (query : RawQuery) : ProblemFilters :=
  { impactLevel := parseArrayField query.impactLevel
    severityLevel := parseArrayField query.severityLevel
    status := parseArrayField query.status
    managementZones := parseArrayField query.managementZones
    affectedEntityTypes := parseArrayField query.affectedEntityTypes
    entityTags := parseArrayField query.entityTags
    evidenceType := parseArrayField query.evidenceType
    dateFrom := parseStringField query.dateFrom
    dateTo := parseStringField query.dateTo
    search := parseStringField query.search
    durationMin := none
    durationMax := none
    hasComments := parseBoolField query.hasComments
    hasGitHubActions := parseBoolField query.hasGitHubActions
    hasRootCause := parseTriStateField query.hasRootCause
    autoremediado := parseTriStateField query.autoremediado
    funcionoAutoRemediacion := parseTriStateField query.funcionoAutoRemediacion }

/-! ## Query builder (`ProblemRepository.buildFilter`) -/

/-- The clause stored under `recentComments.totalCount`:
`{$gt: 0}` or the literal `0`. -/
inductive TotalCountClause where
  | gtZero
  | eqZero
deriving DecidableEq, Repr

/-- The clause produced for `hasRootCause`: either
`{$ne: null, $exists: true}` or `$or: [{rootCauseEntity: null},
{rootCauseEntity: {$exists: false}}]`. -/
inductive RootCauseClause where
  | existsNonNull
  | nullOrAbsent
deriving DecidableEq, Repr

/-- Reification of the MongoDB query object assembled by
`buildFilter`; each field is one of the clauses the code can add. -/
structure MongoFilter where
  impactLevel : Option (List String) := none
  severityLevel : Option (List String) := none
  status : Option (List String) := none
  managementZonesName : Option (List String) := none
  affectedEntitiesType : Option (List String) := none
  entityTagsRepr : Option (List String) := none
  startTimeGte : Option String := none
  startTimeLte : Option String := none
  recentCommentsTotalCount : Option TotalCountClause := none
  commentsContentGithubRegex : Bool := false
  evidenceTypeIn : Option (List String) := none
  textSearch : Option String := none
  rootCauseEntity : Option RootCauseClause := none
  durationGte : Option Rat := none
  durationLte : Option Rat := none
  autoremediado : Option Bool := none
  funcionoAutoRemediacion : Option Bool := none
deriving DecidableEq, Repr

/-- `if (filters.f && filters.f.length > 0) mongoFilter... = {$in: filters.f}`. -/
def inClause (v : Option (List String)) : Option (List String) :=
  match v with
  | some l => if l.length > 0 then some l else none
  | none => none

/-- A string field guarded by JS truthiness (`if (filters.dateFrom)`). -/
def truthyString (v : Option String) : Option String :=
  match v with
  | some s => if s == "" then none else some s
  | none => none

/-- `ProblemRepository.buildFilter` from
`src/repositories/problem.repository.ts`. -/
def buildFilter (filters : ProblemFilters) : MongoFilter :=
  { impactLevel := inClause filters.impactLevel
    severityLevel := inClause filters.severityLevel
    status := inClause filters.status
    managementZonesName := inClause filters.managementZones
    affectedEntitiesType := inClause filters.affectedEntityTypes
    entityTagsRepr := inClause filters.entityTags
    startTimeGte := truthyString filters.dateFrom
    startTimeLte := truthyString filters.dateTo
    recentCommentsTotalCount :=
      match filters.hasComments with
      | some true => some .gtZero
      | some false => some .eqZero
      | none => none
    commentsContentGithubRegex := filters.hasGitHubActions == some true
    evidenceTypeIn := inClause filters.evidenceType
    textSearch := truthyString filters.search
    rootCauseEntity :=
      match filters.hasRootCause with
      | some (some true) => some .existsNonNull
      | some (some false) => some .nullOrAbsent
      | some none => none
      | none => none
    durationGte := filters.durationMin
    durationLte := filters.durationMax
    autoremediado :=
      match filters.autoremediado with
      | some (some b) => some b
      | _ => none
    funcionoAutoRemediacion :=
      match filters.funcionoAutoRemediacion with
      | some (some b) => some b
      | _ => none }

/-! ## Store semantics -/

/-- Oracle for the external `$text` full-text operator. -/
def TextMatch : Type := String → Problem → Bool

/-- Evaluate an optional clause; an absent clause matches everything. -/
def checkOpt (v : Option α) (f : α → Bool) : Bool :=
  match v with
  | some a => f a
  | none => true

/-- Does a document satisfy the reified query object?  Mongo matches
an `$in` against an array-valued path if any element matches; range
operators on a missing field do not match. -/
def matchesFilter (tm : TextMatch) (mf : MongoFilter) (p : Problem) : Bool :=
  checkOpt mf.impactLevel (fun l => l.contains p.impactLevel) &&
  checkOpt mf.severityLevel (fun l => l.contains p.severityLevel) &&
  checkOpt mf.status (fun l => l.contains p.status) &&
  checkOpt mf.managementZonesName
    (fun l => p.managementZones.any (fun z => l.contains z.name)) &&
  checkOpt mf.affectedEntitiesType
    (fun l => p.affectedEntities.any (fun e => l.contains e.entityId.type)) &&
  checkOpt mf.entityTagsRepr
    (fun l => p.entityTags.any (fun t => l.contains t.stringRepresentation)) &&
  checkOpt mf.startTimeGte (fun s => strLe s p.startTime) &&
  checkOpt mf.startTimeLte (fun s => strLe p.startTime s) &&
  checkOpt mf.recentCommentsTotalCount
    (fun c => match c with
      | .gtZero => decide (0 < p.recentComments.totalCount)
      | .eqZero => p.recentComments.totalCount == 0) &&
  (if mf.commentsContentGithubRegex then
    p.recentComments.comments.any (fun c => containsLower c.content "github actions")
  else true) &&
  checkOpt mf.evidenceTypeIn
    (fun l => p.evidenceDetails.details.any (fun d => l.contains d.evidenceType)) &&
  checkOpt mf.textSearch (fun s => tm s p) &&
  checkOpt mf.rootCauseEntity
    (fun c => match c, p.rootCauseEntity with
      | .existsNonNull, .obj _ => true
      | .existsNonNull, _ => false
      | .nullOrAbsent, .null => true
      | .nullOrAbsent, .absent => true
      | .nullOrAbsent, .obj _ => false) &&
  checkOpt mf.durationGte
    (fun lo => match p.duration with
      | some d => decide (lo ≤ d)
      | none => false) &&
  checkOpt mf.durationLte
    (fun hi => match p.duration with
      | some d => decide (d ≤ hi)
      | none => false) &&
  checkOpt mf.autoremediado (fun b => p.autoremediado == some b) &&
  checkOpt mf.funcionoAutoRemediacion (fun b => p.funcionoAutoRemediacion == some b)

/-! ## Record repository (`ProblemRepository`) -/

/-- `collection.countDocuments(mongoFilter)` over the modelled store. -/
def countDocuments (store : List Problem) (tm : TextMatch) (mf : MongoFilter) : Nat :=
  (store.filter (matchesFilter tm mf)).length

/-- The paginated response shape of `findAll`. -/
structure PaginatedProblemsResponse where
  problems : List Problem
  total : Nat
  page : Nat
  limit : Nat
  totalPages : Nat
deriving Repr

/-- `ProblemRepository.findAll`: build the predicate, sort (the
dynamic-field comparator is abstracted as the `sorter` oracle), skip
`(page-1)*limit`, take `limit`, and count the same predicate
uncapped.  `totalPages = ceil(total/limit)`. -/
def findAll (store : List Problem) (tm : TextMatch)
    (sorter : List Problem → List Problem) (filters : ProblemFilters)
    (page : Nat) (limit : Nat) : PaginatedProblemsResponse :=
  { problems :=
      (((sorter (store.filter (matchesFilter tm (buildFilter filters)))).drop
        ((page - 1) * limit)).take limit)
    total := countDocuments store tm (buildFilter filters)
    page := page
    limit := limit
    totalPages := (countDocuments store tm (buildFilter filters) + limit - 1) / limit }

/-- `ProblemRepository.findAllProblems`: bulk fetch with the analytics
projection (a field restriction, identity on the modelled record) and
the `if (limit)` falsy check defaulting the cap to 10000. -/
def findAllProblems (store : List Problem) (tm : TextMatch)
    (filters : Option ProblemFilters) (limit : Option Nat) : List Problem :=
  let mongoFilter := match filters with
    | some f => buildFilter f
    | none => ({} : MongoFilter)
  let docs := store.filter (matchesFilter tm mongoFilter)
  match limit with
  | some l => if l ≠ 0 then docs.take l else docs.take 10000
  | none => docs.take 10000

/-- Apply the combined `addComment` update document
(`$push` on the comments list, `$inc` on `totalCount`) to one record. -/
def applyAddComment (comment : Comment) (p : Problem) : Problem :=
  { p with recentComments :=
    { totalCount := p.recentComments.totalCount + 1
      comments := p.recentComments.comments ++ [comment] } }

/-- `findOneAndUpdate` over the modelled store: update the first
record matching `problemId`, in place. -/
def updateFirst (pid : String) (upd : Problem → Problem) : List Problem → List Problem
  | [] => []
  | p :: rest =>
    if p.problemId == pid then upd p :: rest else p :: updateFirst pid upd rest

/-- `ProblemRepository.addComment`: `findOneAndUpdate({problemId},
{$push..., $inc...}, {returnDocument: 'after'})`.  Returns the
updated document (or `none` when no record matches) and the new
store state. -/
def addComment (store : List Problem) (pid : String) (comment : Comment) :
    Option Problem × List Problem :=
  ((store.find? (fun p => p.problemId == pid)).map (applyAddComment comment),
   updateFirst pid (applyAddComment comment) store)

/-! ## Analytics engine (`AnalyticsService`) -/

/-- Does any comment on the problem mention "GitHub Actions"
(case-insensitive substring)? -/
def mentionsGithubActions (p : Problem) : Bool :=
  p.recentComments.comments.any (fun c => containsLower c.content "github actions")

/-- Does any comment mention "success" or "completed"
(case-insensitive)? -/
def mentionsSuccess (p : Problem) : Bool :=
  p.recentComments.comments.any (fun c =>
    containsLower c.content "success" || containsLower c.content "completed")

/-- The KPI response shape. -/
structure DashboardKPIs where
  totalProblems : Nat
  openProblems : Nat
  closedProblems : Nat
  totalDuration : Rat
  avgResolutionTime : Int
  problemsWithComments : Nat
  githubActionProblems : Nat
  criticalProblems : Nat
deriving DecidableEq, Repr

/-- The accumulation step of the `forEach` loop in `getKPIs`:
running total duration and the list of closed-record durations. -/
def kpiStep (acc : Rat × List Rat) (p : Problem) : Rat × List Rat :=
  let duration := durOrZero p
  (acc.1 + duration,
   if p.status == "CLOSED" then acc.2 ++ [duration] else acc.2)

/-- `AnalyticsService.getKPIs`, applied to the bulk record set. -/
def getKPIs (problems : List Problem) : DashboardKPIs :=
  let acc := problems.foldl kpiStep (0, [])
  let resolutionTimes := acc.2
  { totalProblems := problems.length
    openProblems := (problems.filter (fun p => p.status == "OPEN")).length
    closedProblems := (problems.filter (fun p => p.status == "CLOSED")).length
    totalDuration := acc.1
    avgResolutionTime :=
      if 0 < resolutionTimes.length then
        jsRound ((resolutionTimes.foldl (· + ·) 0) / (resolutionTimes.length : Rat))
      else 0
    problemsWithComments :=
      (problems.filter (fun p => 0 < p.recentComments.totalCount)).length
    githubActionProblems := (problems.filter mentionsGithubActions).length
    criticalProblems :=
      (problems.filter (fun p =>
        p.severityLevel == "AVAILABILITY" || p.severityLevel == "ERROR")).length }

/-- Aggregation entry of the `entityMap` in `getTopEntities`. -/
structure EntityInfo where
  name : String
  type : String
  count : Nat
deriving DecidableEq, Repr

/-- One step of the `entityMap` accumulation: `Map.get(key).count++`
when the key exists (keeping name/type from the first occurrence,
preserving insertion order), `Map.set(key, {…, count: 1})` appended
at the end otherwise. -/
def bumpEntity (e : AffectedEntity) : List (String × EntityInfo) → List (String × EntityInfo)
  | [] => [(e.entityId.id, ⟨e.name, e.entityId.type, 1⟩)]
  | (k, info) :: rest =>
    if k == e.entityId.id then (k, { info with count := info.count + 1 }) :: rest
    else (k, info) :: bumpEntity e rest

/-- The full `entityMap` built by the nested `forEach` loops. -/
def entityMapOf (problems : List Problem) : List (String × EntityInfo) :=
  problems.foldl (fun m p => p.affectedEntities.foldl (fun m e => bumpEntity e m) m) []

/-- Output entry of `getTopEntities`. -/
structure TopEntity where
  name : String
  type : String
  problemCount : Nat
deriving DecidableEq, Repr

/-- Comparator modelling `(a, b) => b.count - a.count`
(descending by count). -/
def entityGe (a b : EntityInfo) : Bool := decide (b.count ≤ a.count)

/-- `AnalyticsService.getTopEntities`:
`Array.from(entityMap.values()).sort(byCountDesc).slice(0, limit)
.map(toOutput)`. -/
def getTopEntities (limit : Nat) (problems : List Problem) : List TopEntity :=
  ((((entityMapOf problems).map Prod.snd).mergeSort entityGe).take limit).map
    (fun e => ⟨e.name, e.type, e.count⟩)

/-- One funnel stage: name, count, percentage of the grand total. -/
structure FunnelStage where
  name : String
  count : Nat
  percentage : JSNum
deriving DecidableEq, Repr

/-- `Number(((count / total) * 100).toFixed(2))`. -/
def stagePct (count total : Nat) : JSNum :=
  jsToFixed2 (jsMul100 (jsDiv (count : Rat) (total : Rat)))

/-- `AnalyticsService.getRemediationFunnel`: each later comment-based
stage filters the previous stage's list; the closed stage filters the
whole set; the first stage's percentage is the literal `100`. -/
def getRemediationFunnel (problems : List Problem) : List FunnelStage :=
  let totalProblems := problems.length
  let problemsWithComments := problems.filter (fun p => 0 < p.recentComments.totalCount)
  let problemsWithGitHubActions := problemsWithComments.filter mentionsGithubActions
  let problemsWithSuccess := problemsWithGitHubActions.filter mentionsSuccess
  let closedProblems := problems.filter (fun p => p.status == "CLOSED")
  [ { name := "Total Problems", count := totalProblems, percentage := .num 100 },
    { name := "With Comments", count := problemsWithComments.length,
      percentage := stagePct problemsWithComments.length totalProblems },
    { name := "GitHub Actions Initiated", count := problemsWithGitHubActions.length,
      percentage := stagePct problemsWithGitHubActions.length totalProblems },
    { name := "Remediation Successful", count := problemsWithSuccess.length,
      percentage := stagePct problemsWithSuccess.length totalProblems },
    { name := "Closed", count := closedProblems.length,
      percentage := stagePct closedProblems.length totalProblems } ]

/-- The five duration buckets of `getDurationDistribution`
(source keys `less_than_5`, `5_to_10`, `10_to_30`, `30_to_180`,
`more_than_180`). -/
structure DurationCategories where
  less_than_5 : Nat := 0
  five_to_10 : Nat := 0
  ten_to_30 : Nat := 0
  thirty_to_180 : Nat := 0
  more_than_180 : Nat := 0
deriving DecidableEq, Repr

/-- The if-chain placing one record's `duration || 0` in a bucket. -/
def bucketStep (c : DurationCategories) (duration : Rat) : DurationCategories :=
  if duration < 5 then { c with less_than_5 := c.less_than_5 + 1 }
  else if duration < 10 then { c with five_to_10 := c.five_to_10 + 1 }
  else if duration < 30 then { c with ten_to_30 := c.ten_to_30 + 1 }
  else if duration < 180 then { c with thirty_to_180 := c.thirty_to_180 + 1 }
  else { c with more_than_180 := c.more_than_180 + 1 }

/-- `AnalyticsService.getDurationDistribution`. -/
def getDurationDistribution (problems : List Problem) : DurationCategories :=
  problems.foldl (fun c p => bucketStep c (durOrZero p)) {}

/-- Total of the five bucket counts. -/
def bucketSum (c : DurationCategories) : Nat :=
  c.less_than_5 + c.five_to_10 + c.ten_to_30 + c.thirty_to_180 + c.more_than_180

/-! ## Theorems -/

/-- C1: for every store, text-search oracle, sorter, filter set and
page parameters, the uncapped match count computed by `findAll`
(`countDocuments` over the predicate built from the filters) equals
the number of records returned by the bulk `findAllProblems` whenever
that count does not exceed the 10000-record bulk cap: both derive
their predicate from the same `buildFilter` translation. -/
theorem findAll_total_eq_findAllProblems_length (store : List Problem)
    (tm : TextMatch) (sorter : List Problem → List Problem)
    (F : ProblemFilters) (page limit : Nat)
    (h : (findAll store tm sorter F page limit).total ≤ 10000) :
    (findAllProblems store tm (some F) none).length =
      (findAll store tm sorter F page limit).total := by
  simp only [findAll, countDocuments] at h ⊢
  simp only [findAllProblems]
  rw [List.take_of_length_le h]

/-- Witness for C1 at a concrete input: the empty store with the
empty filter set. -/
theorem findAll_total_eq_findAllProblems_length_witness :
    (findAll [] (fun _ _ => false) id {} 1 10).total ≤ 10000 ∧
    (findAllProblems [] (fun _ _ => false) (some {}) none).length =
      (findAll [] (fun _ _ => false) id {} 1 10).total :=
  ⟨by decide,
   findAll_total_eq_findAllProblems_length [] (fun _ _ => false) id {} 1 10 (by decide)⟩

/-- C10: `findAllProblems` treats an explicit limit of `0` exactly
like an absent limit (the `if (limit)` falsy check), so both apply
the default 10000-record cap; and any supplied non-zero limit `n+1`
bounds the result to at most `n+1` records. -/
theorem findAllProblems_limit_zero_default (store : List Problem)
    (tm : TextMatch) (F : Option ProblemFilters) (n : Nat) :
    findAllProblems store tm F (some 0) = findAllProblems store tm F none ∧
    (findAllProblems store tm F none).length ≤ 10000 ∧
    (findAllProblems store tm F (some (n + 1))).length ≤ n + 1 := by
  refine ⟨rfl, ?_, ?_⟩
  · simp only [findAllProblems]
    exact List.length_take_le _ _
  · simp only [findAllProblems, ne_eq, Nat.succ_ne_zero, not_false_iff, if_true]
    exact List.length_take_le _ _

/-- C9: when the first record matching `problemId` satisfies the
comment-count invariant, `addComment` returns it with exactly one
comment appended and `totalCount` incremented by one (the combined
`$push`/`$inc` update), so the invariant still holds. -/
theorem addComment_preserves_invariant (store : List Problem) (pid : String)
    (comment : Comment) (r : Problem)
    (hfind : store.find? (fun p => p.problemId == pid) = some r)
    (hinv : r.recentComments.totalCount = r.recentComments.comments.length) :
    ∃ r', (addComment store pid comment).1 = some r' ∧
      r'.recentComments.comments = r.recentComments.comments ++ [comment] ∧
      r'.recentComments.totalCount = r.recentComments.totalCount + 1 ∧
      r'.recentComments.totalCount = r'.recentComments.comments.length := by
  refine ⟨applyAddComment comment r, ?_, rfl, rfl, ?_⟩
  · simp [addComment, hfind]
  · simp [applyAddComment, hinv]

/-- Witness for C9 at a concrete input: a one-record store whose
record satisfies the invariant. -/
theorem addComment_preserves_invariant_witness :
    ∃ r', (addComment [{ problemId := "P-1" }] "P-1" { content := "done" }).1 = some r' ∧
      r'.recentComments.comments = ({} : Problem).recentComments.comments ++ [{ content := "done" }] ∧
      r'.recentComments.totalCount = ({} : Problem).recentComments.totalCount + 1 ∧
      r'.recentComments.totalCount = r'.recentComments.comments.length := by
  have h := addComment_preserves_invariant [{ problemId := "P-1" }] "P-1"
    { content := "done" } { problemId := "P-1" } (by decide) (by decide)
  obtain ⟨r', h1, h2, h3, h4⟩ := h
  exact ⟨r', h1, by simpa using h2, by simpa using h3, h4⟩

/-- C2 counterexample: the raw value `"false"` for `hasComments` does
not leave the field unset — `parseFilters` sets it to the explicit
boolean `false`. -/
theorem parseFilters_hasComments_false_is_set :
    (parseFilters { hasComments := some (.str "false") }).hasComments = some false ∧
    (some false : Option Bool) ≠ none := by
  exact ⟨rfl, by simp⟩

/-- C2 (amended): in `parseFilters`, a present `hasComments` raw
value normalizes to `true` exactly when it is the string `"true"` or
boolean `true`; any other present raw value sets the field to the
explicit boolean `false` (it does not leave it unset); only absence
leaves the field unset. -/
theorem parseFilters_hasComments_cases (query : RawQuery) :
    (query.hasComments = none → (parseFilters query).hasComments = none) ∧
    (∀ v, query.hasComments = some v →
      ((parseFilters query).hasComments = some true ↔
        (v = .str "true" ∨ v = .bool true)) ∧
      (¬(v = .str "true" ∨ v = .bool true) →
        (parseFilters query).hasComments = some false)) := by
  constructor
  · intro h
    simp [parseFilters, parseBoolField, h]
  · intro v hv
    constructor
    · simp only [parseFilters, parseBoolField, hv]
      cases v <;> simp [rawIsTrue]
    · intro hne
      simp only [parseFilters, parseBoolField, hv]
      cases v <;> simp [rawIsTrue] at hne ⊢ <;> aesop

/-- Witness for C2 (amended) at a concrete input: the raw string
`"false"` yields the explicit boolean `false`. -/
theorem parseFilters_hasComments_cases_witness :
    (parseFilters { hasComments := some (.str "false") }).hasComments = some false :=
  ((parseFilters_hasComments_cases { hasComments := some (.str "false") }).2
    (.str "false") rfl).2 (by decide)

/-- C7: starting from any raw query, normalizing the raw string
`"false"` for `hasRootCause` and building the predicate yields the
explicit negative clause (`rootCauseEntity` null OR absent), whereas
omitting `hasRootCause` — or normalizing an unrecognized raw value to
the `null` marker — yields a predicate with no `rootCauseEntity`
clause at all; the built predicates are therefore distinct. -/
theorem buildFilter_hasRootCause_false_distinct (query : RawQuery) :
    (buildFilter (parseFilters
      { query with hasRootCause := some (.str "false") })).rootCauseEntity =
        some .nullOrAbsent ∧
    (buildFilter (parseFilters
      { query with hasRootCause := none })).rootCauseEntity = none ∧
    (buildFilter (parseFilters
      { query with hasRootCause := some (.str "unknown") })).rootCauseEntity = none ∧
    buildFilter (parseFilters { query with hasRootCause := some (.str "false") }) ≠
      buildFilter (parseFilters { query with hasRootCause := none }) ∧
    buildFilter (parseFilters { query with hasRootCause := some (.str "false") }) ≠
      buildFilter (parseFilters { query with hasRootCause := some (.str "unknown") }) := by
  refine ⟨rfl, rfl, rfl, ?_, ?_⟩
  · intro h
    have h2 := congrArg MongoFilter.rootCauseEntity h
    simp [buildFilter, parseFilters, parseTriStateField, rawIsTrue, rawIsFalse] at h2
  · intro h
    have h2 := congrArg MongoFilter.rootCauseEntity h
    simp [buildFilter, parseFilters, parseTriStateField, rawIsTrue, rawIsFalse] at h2

/-- C4: the remediation funnel's comment-based stage counts are
monotonically non-increasing — with-comments filters the whole set,
GitHub-Actions filters the with-comments set, success filters the
GitHub-Actions set (total ≥ with-comments ≥ with-GH-actions ≥
with-success) — while the closed stage is computed independently as a
filter of the whole input set, not of any earlier stage. -/
theorem remediationFunnel_monotone (problems : List Problem) :
    ∃ a b c d e,
      (getRemediationFunnel problems).map FunnelStage.count = [a, b, c, d, e] ∧
      b ≤ a ∧ c ≤ b ∧ d ≤ c ∧
      a = problems.length ∧
      e = (problems.filter (fun p => p.status == "CLOSED")).length := by
  refine ⟨problems.length,
    (problems.filter (fun p => 0 < p.recentComments.totalCount)).length,
    ((problems.filter (fun p => 0 < p.recentComments.totalCount)).filter
      mentionsGithubActions).length,
    (((problems.filter (fun p => 0 < p.recentComments.totalCount)).filter
      mentionsGithubActions).filter mentionsSuccess).length,
    (problems.filter (fun p => p.status == "CLOSED")).length,
    ?_, ?_, ?_, ?_, rfl, rfl⟩
  · simp [getRemediationFunnel]
  · exact List.length_filter_le _ _
  · exact List.length_filter_le _ _
  · exact List.length_filter_le _ _

/-- Each record lands in exactly one duration bucket. -/
theorem bucketSum_bucketStep (c : DurationCategories) (d : Rat) :
    bucketSum (bucketStep c d) = bucketSum c + 1 := by
  unfold bucketStep bucketSum
  split_ifs <;> simp <;> omega

/-- Folding the bucket step over any record list adds one per record. -/
theorem bucketSum_foldl (problems : List Problem) (c : DurationCategories) :
    bucketSum (problems.foldl (fun c p => bucketStep c (durOrZero p)) c) =
      bucketSum c + problems.length := by
  induction problems generalizing c with
  | nil => simp
  | cons p ps ih =>
    simp only [List.foldl_cons, ih, bucketSum_bucketStep, List.length_cons]
    omega

/-- C6: for every input record set — durations negative, zero or
fractional included — the five bucket counts of
`getDurationDistribution` sum exactly to the record count; and the
boundary placements hold: a duration of exactly 5 falls in the
`5_to_10` bucket, 29.999 in `10_to_30`, and exactly 180 in
`more_than_180`. -/
theorem durationDistribution_partition (problems : List Problem) :
    bucketSum (getDurationDistribution problems) = problems.length ∧
    (getDurationDistribution [{ duration := some 5 }]).five_to_10 = 1 ∧
    (getDurationDistribution [{ duration := some (29999/1000) }]).ten_to_30 = 1 ∧
    (getDurationDistribution [{ duration := some 180 }]).more_than_180 = 1 := by
  refine ⟨?_, ?_, ?_, ?_⟩
  · simpa [bucketSum] using bucketSum_foldl problems {}
  · norm_num [getDurationDistribution, bucketStep, durOrZero]
  · norm_num [getDurationDistribution, bucketStep, durOrZero]
  · norm_num [getDurationDistribution, bucketStep, durOrZero]

/-- The `forEach` accumulation in `getKPIs` computes the running
duration total and collects the closed records' durations in order. -/
theorem kpiStep_foldl (problems : List Problem) (t : Rat) (rs : List Rat) :
    problems.foldl kpiStep (t, rs) =
      (t + (problems.map durOrZero).sum,
       rs ++ (problems.filter (fun p => p.status == "CLOSED")).map durOrZero) := by
  induction problems generalizing t rs with
  | nil => simp
  | cons p ps ih =>
    simp only [List.foldl_cons, kpiStep]
    rw [ih]
    by_cases h : (p.status == "CLOSED") = true
    · rw [if_pos h, List.filter_cons_of_pos (by exact h), List.map_cons, List.map_cons,
        List.sum_cons, Prod.mk.injEq]
      exact ⟨by ring, by simp⟩
    · rw [if_neg h, List.filter_cons_of_neg (by exact h), List.map_cons,
        List.sum_cons, Prod.mk.injEq]
      exact ⟨by ring, rfl⟩

/-- C5: `getKPIs` returns `avgResolutionTime` equal to the rounded
mean of the stored (`|| 0`-defaulted) duration over CLOSED records
only, and exactly `0` when there are no CLOSED records. -/
theorem getKPIs_avgResolutionTime (problems : List Problem) :
    (getKPIs problems).avgResolutionTime =
      (if (problems.filter (fun p => p.status == "CLOSED")) = [] then 0
       else jsRound
        (((problems.filter (fun p => p.status == "CLOSED")).map durOrZero).sum /
         (((problems.filter (fun p => p.status == "CLOSED")).length : Nat) : Rat))) := by
  simp only [getKPIs, kpiStep_foldl, List.nil_append]
  by_cases h : (problems.filter (fun p => p.status == "CLOSED")) = []
  · simp [h]
  · have hlen : 0 < ((problems.filter (fun p => p.status == "CLOSED")).map durOrZero).length := by
      simp only [List.length_map]
      exact List.length_pos.mpr h
    rw [if_neg h, if_pos hlen, List.sum_eq_foldl, List.length_map]

/-- The count recorded for an id in the aggregation map (0 if the id
is not a key; first matching key wins, as in `Map.get`). -/
def lookupCount (id : String) : List (String × EntityInfo) → Nat
  | [] => 0
  | (k, info) :: rest => if k == id then info.count else lookupCount id rest

/-- Total occurrences of an entity id across all records'
`affectedEntities` lists (repeats inside one record's list included). -/
def entityOccurrences (id : String) (problems : List Problem) : Nat :=
  (problems.map
    (fun p => (p.affectedEntities.filter (fun e => e.entityId.id == id)).length)).sum

/-- One `bumpEntity` step adds exactly one to the bumped id's count
and leaves every other id's count unchanged. -/
theorem lookupCount_bumpEntity (id : String) (e : AffectedEntity)
    (m : List (String × EntityInfo)) :
    lookupCount id (bumpEntity e m) =
      lookupCount id m + (if e.entityId.id == id then 1 else 0) := by
  induction m with
  | nil =>
    by_cases h : (e.entityId.id == id) = true
    · simp [bumpEntity, lookupCount, h]
    · simp [bumpEntity, lookupCount, h]
  | cons kv rest ih =>
    obtain ⟨k, info⟩ := kv
    simp only [bumpEntity]
    by_cases hk : (k == e.entityId.id) = true
    · rw [if_pos hk]
      have hk2 : k = e.entityId.id := by simpa using hk
      by_cases hid : (k == id) = true
      · have hee : (e.entityId.id == id) = true := by rw [← hk2]; exact hid
        simp [lookupCount, hid, hee]
      · have hee : (e.entityId.id == id) = false := by
          rw [← hk2]
          simpa using hid
        simp [lookupCount, hid, hee]
    · rw [if_neg hk]
      by_cases hid : (k == id) = true
      · have hk2 : ¬ k = e.entityId.id := by simpa using hk
        have hid2 : k = id := by simpa using hid
        have hee : (e.entityId.id == id) = false := by
          have hne : ¬ e.entityId.id = id := fun hc => hk2 (by rw [hid2, hc])
          simpa using hne
        simp [lookupCount, hid, hee]
      · simp only [lookupCount, hid, if_false, Bool.false_eq_true]
        exact ih

/-- Folding the per-entity bump over one record's list adds that
record's per-id occurrence count. -/
theorem lookupCount_foldl_entities (id : String) (es : List AffectedEntity)
    (m : List (String × EntityInfo)) :
    lookupCount id (es.foldl (fun m e => bumpEntity e m) m) =
      lookupCount id m + (es.filter (fun e => e.entityId.id == id)).length := by
  induction es generalizing m with
  | nil => simp
  | cons e es ih =>
    simp only [List.foldl_cons, ih, lookupCount_bumpEntity, List.filter_cons]
    by_cases h : (e.entityId.id == id) = true
    · simp [h]
      omega
    · simp [h]

/-- The full `entityMap` records, for every id, its total occurrence
count across all records. -/
theorem lookupCount_entityMap_foldl (id : String) (problems : List Problem)
    (m : List (String × EntityInfo)) :
    lookupCount id (problems.foldl
      (fun m p => p.affectedEntities.foldl (fun m e => bumpEntity e m) m) m) =
      lookupCount id m + entityOccurrences id problems := by
  induction problems generalizing m with
  | nil => simp [entityOccurrences]
  | cons p ps ih =>
    simp only [List.foldl_cons, ih, lookupCount_foldl_entities, entityOccurrences,
      List.map_cons, List.sum_cons]
    omega

/-- C3 counterexample: a single record whose `affectedEntities` list
contains the same entity id twice yields `problemCount = 2` for that
entity — each occurrence is counted, not once per record. -/
theorem getTopEntities_double_count :
    getTopEntities 10
      [{ affectedEntities :=
          [ { name := "svc", entityId := { id := "E1", type := "SERVICE" } },
            { name := "svc", entityId := { id := "E1", type := "SERVICE" } } ] }] =
      [{ name := "svc", type := "SERVICE", problemCount := 2 }] ∧
    (2 : Nat) ≠ 1 := by
  constructor
  · simp [getTopEntities, entityMapOf, bumpEntity, List.mergeSort_singleton]
  · decide

/-- C3 (amended): in `getTopEntities`, each distinct affected-entity
id is counted once per occurrence across all records' lists (so a
repeat inside one record's list counts again); the returned entities
are sorted descending by count and truncated to the supplied limit. -/
theorem getTopEntities_counts_sorted (problems : List Problem) (limit : Nat)
    (id : String) :
    lookupCount id (entityMapOf problems) = entityOccurrences id problems ∧
    List.Pairwise (fun a b => b.problemCount ≤ a.problemCount)
      (getTopEntities limit problems) ∧
    (getTopEntities limit problems).length ≤ limit := by
  refine ⟨?_, ?_, ?_⟩
  · simpa [lookupCount] using lookupCount_entityMap_foldl id problems []
  · have htrans : ∀ a b c : EntityInfo,
        entityGe a b = true → entityGe b c = true → entityGe a c = true := by
      intro a b c hab hbc
      simp only [entityGe, decide_eq_true_eq] at *
      omega
    have htotal : ∀ a b : EntityInfo, (entityGe a b || entityGe b a) = true := by
      intro a b
      simp only [entityGe, Bool.or_eq_true, decide_eq_true_eq]
      omega
    have hs := List.sorted_mergeSort htrans htotal ((entityMapOf problems).map Prod.snd)
    have ht := hs.sublist (List.take_sublist limit _)
    exact List.Pairwise.map _
      (fun a b h => by simpa [entityGe] using h) ht
  · simp only [getTopEntities, List.length_map]
    exact List.length_take_le _ _

/-- C8 counterexample: on an empty record set (total = 0) the first
funnel stage's percentage is the hard-coded literal `100`, not NaN —
so not every stage's percentage is NaN when the total is 0. -/
theorem remediationFunnel_first_stage_not_nan :
    (getRemediationFunnel []).map FunnelStage.percentage =
      [.num 100, .nan, .nan, .nan, .nan] ∧
    JSNum.num 100 ≠ JSNum.nan := by
  constructor
  · simp [getRemediationFunnel, stagePct, jsDiv, jsMul100, jsToFixed2]
  · simp

/-- A default problem record, used as a concrete witness input. -/
def problemW : Problem := {}

/-- C8 (amended): every funnel stage reports its count together with
`Number(((count/total)*100).toFixed(2))` as its percentage — except
the first (Total) stage, whose percentage is the literal `100` — and
when the total record count is 0 the division makes every non-first
stage's percentage NaN while the first stays `100`. -/
theorem remediationFunnel_percentages (problems : List Problem) :
    ((getRemediationFunnel problems).head?.map FunnelStage.percentage =
      some (.num 100)) ∧
    (∀ s ∈ (getRemediationFunnel problems).tail,
      s.percentage = stagePct s.count problems.length) ∧
    ((getRemediationFunnel []).head?.map FunnelStage.percentage =
      some (.num 100) ∧
     ∀ s ∈ (getRemediationFunnel []).tail, s.percentage = JSNum.nan) := by
  refine ⟨?_, ?_, ?_, ?_⟩
  · simp [getRemediationFunnel]
  · intro s hs
    simp only [getRemediationFunnel, List.tail_cons, List.mem_cons,
      List.not_mem_nil, or_false] at hs
    rcases hs with h | h | h | h <;> subst h <;> rfl
  · simp [getRemediationFunnel]
  · intro s hs
    simp only [getRemediationFunnel, List.tail_cons, List.mem_cons,
      List.not_mem_nil, or_false] at hs
    have hz : stagePct 0 0 = JSNum.nan := by
      simp [stagePct, jsDiv, jsMul100, jsToFixed2]
    rcases hs with h | h | h | h <;> subst h <;>
      simp only [List.filter_nil, List.length_nil] <;> exact hz

/-- The concrete funnel stage used by the C8 witness. -/
def stageW : FunnelStage :=
  { name := "With Comments", count := 0, percentage := stagePct 0 1 }

/-- Witness for C8 (amended): the "With Comments" stage of a
one-record input, with its percentage tied to its count. -/
theorem remediationFunnel_percentages_witness :
    stageW ∈ (getRemediationFunnel [problemW]).tail ∧
    stageW.percentage = stagePct stageW.count ([problemW] : List Problem).length := by
  have hmem : stageW ∈ (getRemediationFunnel [problemW]).tail := by
    simp [getRemediationFunnel, problemW, stageW]
  have h := (remediationFunnel_percentages [problemW]).2.1 _ hmem
  exact ⟨hmem, h⟩
